import Mathlib

/-!
Verification development for the "emu-pages" libretro core
(`src/emu_pages.c`, `src/renderer.c`, `src/renderer.h`).

The C sources are shallowly embedded: C `int` variables become `Int`,
C truncating division/remainder become `Int.tdiv`/`Int.tmod`, the
framebuffer (a `uint32_t` array of `SCREEN_W * SCREEN_H` entries)
becomes a total function `Fin (SCREEN_W * SCREEN_H) → Nat`, and the
mutable globals of `emu_pages.c` become an explicit `CoreState` record
threaded through step functions.  Data that is generated at build time
and not part of the repository (the `font8x8_basic.h` glyph table, the
`mascot_data.h` sprite, and the `wiki_data.h` page catalog) is kept
abstract as parameters (`Assets`, `Catalog`).
-/

namespace EmuPages

/-! ## Screen geometry and palette constants (renderer.h) -/

def SCREEN_W : Nat := 640
def SCREEN_H : Nat := 480
def GLYPH_W : Int := 8
def GLYPH_H : Int := 16
def TERM_COLS : Int := 80
def TERM_ROWS : Int := 30
def BORDER_COLS : Int := 2
def BORDER_ROWS : Int := 1
def TEXT_COLS : Int := 76
def TEXT_ROWS : Int := 28
def HEADER_ROW : Int := 0
def CONTENT_START : Int := 2
def FOOTER_ROW : Int := 27
def CONTENT_ROWS : Int := 25

def COL_BORDER : Nat := 0xFF6C5EB5
def COL_BG : Nat := 0xFF4039A4
def COL_FG : Nat := 0xFFA0A0E0
def COL_TITLE : Nat := 0xFFFFFFFF
def COL_HIGHLIGHT : Nat := 0xFF70E070
def COL_H2 : Nat := 0xFFE0E050
def COL_H3 : Nat := 0xFFC8C8E0
def COL_DIM : Nat := 0xFF7070C0
def COL_CURSOR_FG : Nat := 0xFF2020A0
def BAR_COLOR : Nat := 0xFF924A40

/-! ## Framebuffer model

The C framebuffer is `uint32_t framebuffer[SCREEN_W * SCREEN_H]`; we model
it as a total function on its index range.  All C writes are bounds-checked
or clamped before they happen, so every store lands inside this range. -/

def FB_SIZE : Nat := SCREEN_W * SCREEN_H

abbrev FB := Fin FB_SIZE → Nat

/-- Single store `fb[idx] = color` (index computed in C `int` arithmetic). -/
def setPix (fb : FB) (idx : Int) (color : Nat) : FB :=
  fun j => if ((j : Nat) : Int) = idx then color else fb j

/-- Build-time data that is not part of the repository sources:
the 8x8 font table (`font8x8_basic.h`, vendored) and the mascot sprite
(`mascot_data.h`, generated).  `font c r` is the byte of row `r` of
glyph `c`; `mascotPx i` is the packed ARGB pixel at linear index `i`. -/
structure Assets where
  font : Nat → Nat → Nat
  mascotW : Nat
  mascotH : Nat
  mascotPx : Nat → Nat

/-! ## renderer.c primitives -/

/-- `fill_rect` from renderer.c: clamps the rectangle to the screen and
stores `color` at every `fb[y * SCREEN_W + x]` with `x0 ≤ x < x1`,
`y0 ≤ y < y1`.  Expressed as the resulting contents of each cell. -/
def fill_rect (x0 y0 x1 y1 : Int) (color : Nat) (fb : FB) : FB :=
  let x0 := if x0 < 0 then 0 else x0
  let y0 := if y0 < 0 then 0 else y0
  let x1 := if x1 > (SCREEN_W : Int) then (SCREEN_W : Int) else x1
  let y1 := if y1 > (SCREEN_H : Int) then (SCREEN_H : Int) else y1
  fun j =>
    let x : Int := ((j : Nat) : Int) % (SCREEN_W : Int)
    let y : Int := ((j : Nat) : Int) / (SCREEN_W : Int)
    if x0 ≤ x ∧ x < x1 ∧ y0 ≤ y ∧ y < y1 then color else fb j

/-- `render_glyph` from renderer.c: paints the 8x8 bitmap of `ch`
(doubled vertically to 16px) at pixel origin `(px, py)`; codes ≥ 128 fall
back to `?` (63); out-of-bounds pixels are skipped. -/
def render_glyph (font : Nat → Nat → Nat) (px py : Int) (ch : Nat)
    (color : Nat) (fb : FB) : FB :=
  let ch := if ch ≥ 128 then 63 else ch
  (List.range 8).foldl (fun fb row =>
    let bits := font ch row
    let sy0 := py + (row : Int) * 2
    let sy1 := sy0 + 1
    (List.range 8).foldl (fun fb col =>
      if bits.testBit col then
        let sx := px + (col : Int)
        if 0 ≤ sx ∧ sx < (SCREEN_W : Int) then
          let fb := if 0 ≤ sy0 ∧ sy0 < (SCREEN_H : Int) then
              setPix fb (sy0 * (SCREEN_W : Int) + sx) color else fb
          if 0 ≤ sy1 ∧ sy1 < (SCREEN_H : Int) then
            setPix fb (sy1 * (SCREEN_W : Int) + sx) color else fb
        else fb
      else fb) fb) fb

/-- `render_clear` from renderer.c: the first loop stores the border color
at every index of the framebuffer (so the previous contents are fully
overwritten), then the inner text area is filled with the background. -/
def render_clear (_fb : FB) : FB :=
  fill_rect (BORDER_COLS * GLYPH_W) (BORDER_ROWS * GLYPH_H)
    ((TERM_COLS - BORDER_COLS) * GLYPH_W) ((TERM_ROWS - BORDER_ROWS) * GLYPH_H)
    COL_BG (fun _ => COL_BORDER)

/-- Character-drawing loop shared by `render_text` and `render_text_inv`:
draws `str[i]` at `((scol + i) * GLYPH_W, py)` while `col + i < TEXT_COLS`
and the string has not ended. -/
def text_go (font : Nat → Nat → Nat) (scol : Int) (py : Int) (col : Int)
    (i : Int) (str : List Nat) (color : Nat) (fb : FB) : FB :=
  match str with
  | [] => fb
  | c :: rest =>
    if col + i < TEXT_COLS then
      text_go font scol py col (i + 1) rest color
        (render_glyph font ((scol + i) * GLYPH_W) py c color fb)
    else fb

/-- `render_text` from renderer.c: text at inner-area coordinates,
clipped at the right edge of the inner text area. -/
def render_text (font : Nat → Nat → Nat) (col row : Int) (str : List Nat)
    (color : Nat) (fb : FB) : FB :=
  let scol := col + BORDER_COLS
  let srow := row + BORDER_ROWS
  text_go font scol (srow * GLYPH_H) col 0 str color fb

/-- `render_text_inv` from renderer.c: fills the full row width with `bg`,
then overlays the string in `fg`. -/
def render_text_inv (font : Nat → Nat → Nat) (col row : Int) (str : List Nat)
    (fg bg : Nat) (fb : FB) : FB :=
  let scol := col + BORDER_COLS
  let srow := row + BORDER_ROWS
  let px0 := scol * GLYPH_W
  let py0 := srow * GLYPH_H
  let fb := fill_rect px0 py0 (px0 + TEXT_COLS * GLYPH_W) (py0 + GLYPH_H) bg fb
  text_go font scol py0 col 0 str fg fb

/-- `render_hline` from renderer.c: one character repeated across the
inner text width. -/
def render_hline (font : Nat → Nat → Nat) (row : Int) (ch : Nat)
    (color : Nat) (fb : FB) : FB :=
  (List.range 76).foldl (fun fb i =>
    render_glyph font ((BORDER_COLS + (i : Int)) * GLYPH_W)
      ((row + BORDER_ROWS) * GLYPH_H) ch color fb) fb

/-- Byte list of an ASCII string literal. -/
def strBytes (s : String) : List Nat := s.data.map (fun c => c.toNat)

/-! ## Boot screen helpers (renderer.c) -/

/-- `type_line` from renderer.c: renders the first `min avail len`
characters of `str` when `avail > 0`.  (The C function also returns
`strlen(str)`, which its caller ignores.) -/
def type_line (font : Nat → Nat → Nat) (str : List Nat) (col row : Int)
    (avail : Int) (color : Nat) (fb : FB) : FB :=
  if avail > 0 then
    let n := if avail < (str.length : Int) then avail else (str.length : Int)
    render_text font col row (str.take n.toNat) color fb
  else fb

/-- `blink_cursor` from renderer.c: filled block at the cursor cell on a
60-frame blink cycle (`(frame / 30) % 2 == 0`, C truncating division). -/
def blink_cursor (col row : Int) (frame : Int) (fb : FB) : FB :=
  if Int.tmod (Int.tdiv frame 30) 2 = 0 then
    let scol := col + BORDER_COLS
    let srow := row + BORDER_ROWS
    let px := scol * GLYPH_W
    let py := srow * GLYPH_H
    fill_rect px py (px + GLYPH_W) (py + GLYPH_H) COL_FG fb
  else fb

/-- `render_mascot` from renderer.c: blits the sprite centred at
`(cx, cy)`, skipping transparent pixels, either opaque (`alpha ≥ 255`)
or alpha-blended toward `COL_BG` (C truncating division). -/
def render_mascot (a : Assets) (cx cy : Int) (alpha : Int) (fb : FB) : FB :=
  let x0 := cx - Int.tdiv (a.mascotW : Int) 2
  let y0 := cy - Int.tdiv (a.mascotH : Int) 2
  (List.range a.mascotH).foldl (fun fb (y : Nat) =>
    let sy := y0 + (y : Int)
    if sy < 0 ∨ sy ≥ (SCREEN_H : Int) then fb else
    (List.range a.mascotW).foldl (fun fb (x : Nat) =>
      let sx := x0 + (x : Int)
      if sx < 0 ∨ sx ≥ (SCREEN_W : Int) then fb else
      let px := a.mascotPx (y * a.mascotW + x)
      if px >>> 24 = 0 then fb else
      if alpha ≥ 255 then
        setPix fb (sy * (SCREEN_W : Int) + sx) (px ||| 0xFF000000)
      else
        let sr : Int := ((px >>> 16) &&& 0xFF : Nat)
        let sg : Int := ((px >>> 8) &&& 0xFF : Nat)
        let sb : Int := (px &&& 0xFF : Nat)
        let br : Int := ((COL_BG >>> 16) &&& 0xFF : Nat)
        let bgc : Int := ((COL_BG >>> 8) &&& 0xFF : Nat)
        let bb : Int := (COL_BG &&& 0xFF : Nat)
        let r := br + Int.tdiv ((sr - br) * alpha) 255
        let g := bgc + Int.tdiv ((sg - bgc) * alpha) 255
        let b := bb + Int.tdiv ((sb - bb) * alpha) 255
        setPix fb (sy * (SCREEN_W : Int) + sx)
          (0xFF000000 ||| (r.toNat <<< 16) ||| (g.toNat <<< 8) ||| b.toNat)
      ) fb) fb

/-- `render_loading_bar` from renderer.c: bordered 320x12 bar, filled in
20 segments up to `(bar_w * progress) / 256` pixels.  The C loop stops at
the first segment whose start is past the fill; since segment starts are
increasing, guarding each segment by the same condition is equivalent. -/
def render_loading_bar (cy : Int) (progress : Int) (fb : FB) : FB :=
  let bar_w : Int := 320
  let bar_h : Int := 12
  let x0 := Int.tdiv ((SCREEN_W : Int) - bar_w) 2
  let y0 := cy - Int.tdiv bar_h 2
  let fb := fill_rect (x0 - 2) (y0 - 2) (x0 + bar_w + 2) (y0 + bar_h + 2)
    COL_DIM fb
  let fb := fill_rect x0 y0 (x0 + bar_w) (y0 + bar_h) COL_BG fb
  let filled := Int.tdiv (bar_w * progress) 256
  let seg_w := Int.tdiv bar_w 20
  (List.range 20).foldl (fun fb i =>
    if (i : Int) * seg_w < filled then
      let sx := x0 + (i : Int) * seg_w
      let sw := seg_w - 1
      let sw := if sx + sw > x0 + filled then x0 + filled - sx else sw
      if sw > 0 then
        fill_rect sx (y0 + 1) (sx + sw) (y0 + bar_h - 1) BAR_COLOR fb
      else fb
    else fb) fb

/-! ## render_boot (renderer.c) -/

/-- Everything `render_boot` draws after its initial `render_clear()`:
phase 1 (C64 BASIC prompt, frames < 360), phase 2 (mascot fade + loading
bar, frames < 560), phase 3 (hold complete). -/
def render_boot_body (a : Assets) (frame : Int) (fb : FB) : FB :=
  if frame < 360 then
    let banner := strBytes "**** COMMODORE 64 BASIC V2 ****"
    let ram := strBytes "64K RAM SYSTEM  38911 BASIC BYTES FREE"
    let load_cmd := strBytes "LOAD \"EMUVR\",8,1"
    let load_len : Int := load_cmd.length
    let fb := if frame ≥ 0 then
        let ctr := Int.tdiv (TEXT_COLS - (banner.length : Int)) 2
        render_text a.font ctr 1 banner COL_TITLE fb
      else fb
    let fb := if frame ≥ 2 then
        let ctr2 := Int.tdiv (TEXT_COLS - (ram.length : Int)) 2
        render_text a.font ctr2 3 ram COL_FG fb
      else fb
    let fb := if frame ≥ 10 then
        render_text a.font 0 5 (strBytes "READY.") COL_FG fb
      else fb
    let fb := if frame ≥ 20 then
        let chars := Int.tdiv (frame - 20) 4
        let chars := if chars > load_len then load_len else chars
        let fb := type_line a.font load_cmd 0 6 chars COL_FG fb
        if chars < load_len then blink_cursor chars 6 frame fb
        else if frame < 100 then blink_cursor load_len 6 frame fb
        else fb
      else fb
    let fb := if frame ≥ 110 then
        render_text a.font 0 8 (strBytes "SEARCHING FOR EMUVR") COL_FG fb
      else fb
    let fb := if frame ≥ 230 then
        render_text a.font 0 9 (strBytes "LOADING") COL_FG fb
      else fb
    let fb := if frame ≥ 340 then
        render_text a.font 0 11 (strBytes "READY.") COL_FG fb
      else fb
    if frame ≥ 345 then
      let rn := strBytes "RUN"
      let run_len : Int := 3
      let chars := Int.tdiv (frame - 345) 4
      let chars := if chars > run_len then run_len else chars
      let fb := type_line a.font rn 0 12 chars COL_FG fb
      blink_cursor (if chars < run_len then chars else run_len) 12 frame fb
    else fb
  else if frame < 560 then
    let pf := frame - 360
    let fade := Int.tdiv (pf * 255) 60
    let fade := if fade > 255 then 255 else fade
    let mascot_cy : Int := Int.tdiv (SCREEN_H : Int) 2 - 40
    let fb := render_mascot a (Int.tdiv (SCREEN_W : Int) 2) mascot_cy fade fb
    let bar_cy := mascot_cy + Int.tdiv (a.mascotH : Int) 2 + 55
    let progress := Int.tdiv ((pf - 30) * 256) 150
    let progress := if progress < 0 then 0 else progress
    let progress := if progress > 256 then 256 else progress
    let fb := render_loading_bar bar_cy progress fb
    if pf > 20 then
      let msg := strBytes "LOADING EMUVR WIKI..."
      let mx := Int.tdiv (TEXT_COLS - (msg.length : Int)) 2
      let msg_row := Int.tdiv (bar_cy - 20) GLYPH_H - BORDER_ROWS
      if 0 ≤ msg_row ∧ msg_row < TEXT_ROWS then
        render_text a.font mx msg_row msg COL_DIM fb
      else fb
    else fb
  else
    let mascot_cy : Int := Int.tdiv (SCREEN_H : Int) 2 - 40
    let fb := render_mascot a (Int.tdiv (SCREEN_W : Int) 2) mascot_cy 255 fb
    let bar_cy := mascot_cy + Int.tdiv (a.mascotH : Int) 2 + 55
    let fb := render_loading_bar bar_cy 256 fb
    let msg := strBytes "LOADING EMUVR WIKI..."
    let mx := Int.tdiv (TEXT_COLS - (msg.length : Int)) 2
    let msg_row := Int.tdiv (bar_cy - 20) GLYPH_H - BORDER_ROWS
    if 0 ≤ msg_row ∧ msg_row < TEXT_ROWS then
      render_text a.font mx msg_row msg COL_DIM fb
    else fb

/-- `render_boot` from renderer.c: clears the whole screen, then draws the
phase selected by the frame counter. -/
def render_boot (a : Assets) (frame : Int) (fb0 : FB) : FB :=
  render_boot_body a frame (render_clear fb0)

/-! ## Wiki catalog (wiki_data.h, generated at build time) -/

/-- Line tag from wiki_data.h (`LINE_H2`, `LINE_H3`, body). -/
inductive LineType
  | body
  | h2
  | h3
deriving DecidableEq

/-- One `wiki_line_t`: tag plus text bytes. -/
structure WikiLine where
  type : LineType
  text : List Nat

/-- The generated `wiki_pages` array and `WIKI_PAGE_COUNT`:
`count` pages, each with a title, a line count, and lines. -/
structure Catalog where
  count : Nat
  title : Nat → List Nat
  lineCount : Nat → Nat
  line : Nat → Nat → WikiLine

/-- Decimal rendering of a Nat, as `snprintf`'s `%d` produces for
non-negative values. -/
def natDec (n : Nat) : List Nat := strBytes (toString n)

/-- Right-pad with spaces to width `w`, as `%-Ns` does. -/
def padRight (l : List Nat) (w : Nat) : List Nat :=
  l ++ List.replicate (w - l.length) 32

/-! ## render_toc and render_page (renderer.c)

`snprintf(buf, TEXT_COLS + 1, ...)` truncates its result to `TEXT_COLS`
characters, modelled by `List.take 76`. -/

/-- `render_toc` from renderer.c. -/
def render_toc (a : Assets) (cat : Catalog) (cursor scroll : Int)
    (fb0 : FB) : FB :=
  let fb := render_clear fb0
  let title := strBytes "**** THE EMU PAGES ****"
  let cx := Int.tdiv (TEXT_COLS - (title.length : Int)) 2
  let fb := render_text a.font cx 0 title COL_TITLE fb
  let info := (natDec cat.count ++ strBytes " WIKI PAGES LOADED. READY.").take 76
  let fb := render_text a.font 1 2 info COL_FG fb
  let fb := render_hline a.font 3 45 COL_DIM fb
  let list_rows : Int := CONTENT_ROWS - 3
  let fb := (List.range 22).foldl (fun fb (i : Nat) =>
      if scroll + (i : Int) < (cat.count : Int) then
        let page_idx := scroll + (i : Int)
        let row : Int := 4 + (i : Int)
        if page_idx = cursor then
          let line := (strBytes " > " ++ padRight (cat.title page_idx.toNat) 73).take 76
          render_text_inv a.font 0 row line COL_CURSOR_FG COL_HIGHLIGHT fb
        else
          let line := (strBytes "   " ++ cat.title page_idx.toNat).take 76
          render_text a.font 0 row line COL_FG fb
      else fb) fb
  let fb := if scroll > 0 then
      render_text a.font (TEXT_COLS - 3) 3 (strBytes "[^]") COL_DIM fb
    else fb
  let fb := if scroll + list_rows < (cat.count : Int) then
      render_text a.font (TEXT_COLS - 3) (FOOTER_ROW - 1) (strBytes "[v]") COL_DIM fb
    else fb
  let fb := render_hline a.font (FOOTER_ROW - 1) 45 COL_DIM fb
  render_text a.font 1 FOOTER_ROW
    (strBytes "[UP/DN] SELECT  [A] OPEN  [LEFT/RIGHT] PREV/NEXT") COL_DIM fb

/-- `render_page` from renderer.c. -/
def render_page (a : Assets) (cat : Catalog) (page_idx scroll : Int)
    (fb0 : FB) : FB :=
  let fb := render_clear fb0
  let p := page_idx.toNat
  let header := (strBytes "<< " ++ padRight (cat.title p) 60 ++ strBytes " ["
      ++ natDec (page_idx + 1).toNat ++ strBytes "/" ++ natDec cat.count
      ++ strBytes "]").take 76
  let fb := render_text a.font 0 HEADER_ROW header COL_TITLE fb
  let fb := render_hline a.font 1 61 COL_DIM fb
  let max_scroll := (cat.lineCount p : Int) - CONTENT_ROWS
  let max_scroll := if max_scroll < 0 then 0 else max_scroll
  let fb := (List.range 25).foldl (fun fb (i : Nat) =>
      let line_idx := scroll + (i : Int)
      if line_idx < (cat.lineCount p : Int) then
        let ln := cat.line p line_idx.toNat
        match ln.type with
        | LineType.h2 =>
          render_text a.font 0 (CONTENT_START + (i : Int))
            ((strBytes "== " ++ ln.text ++ strBytes " ==").take 76) COL_H2 fb
        | LineType.h3 =>
          render_text a.font 0 (CONTENT_START + (i : Int))
            ((strBytes "--- " ++ ln.text ++ strBytes " ---").take 76) COL_H3 fb
        | LineType.body =>
          render_text a.font 1 (CONTENT_START + (i : Int)) ln.text COL_FG fb
      else fb) fb
  let fb := if scroll > 0 then
      render_text a.font (TEXT_COLS - 3) 1 (strBytes "[^]") COL_DIM fb
    else fb
  let fb := if scroll < max_scroll then
      render_text a.font (TEXT_COLS - 3) (FOOTER_ROW - 1) (strBytes "[v]") COL_DIM fb
    else fb
  let fb := render_hline a.font (FOOTER_ROW - 1) 45 COL_DIM fb
  render_text a.font 1 FOOTER_ROW
    (strBytes "[UP/DN] SCROLL  [B] BACK  [L/R] PG UP/DN  [<//>] PREV/NEXT")
    COL_DIM fb

/-! ## emu_pages.c state machine -/

/-- `core_state_t`. -/
inductive CState
  | boot
  | toc
  | page
deriving DecidableEq

/-- The mutable globals of emu_pages.c, gathered into one record.
`heldFrames` is the `held_frames[BTN_COUNT]` array; `fb` is the static
framebuffer. -/
structure CoreState where
  state : CState
  gameLoaded : Bool
  bootTimer : Int
  tocCursor : Int
  tocScroll : Int
  currentPage : Int
  pageScroll : Int
  heldFrames : Nat → Int
  fb : FB

/-- Joypad button ids from libretro.h (`RETRO_DEVICE_ID_JOYPAD_*`). -/
abbrev JOYPAD_B : Nat := 0
abbrev JOYPAD_START : Nat := 3
abbrev JOYPAD_UP : Nat := 4
abbrev JOYPAD_DOWN : Nat := 5
abbrev JOYPAD_LEFT : Nat := 6
abbrev JOYPAD_RIGHT : Nat := 7
abbrev JOYPAD_A : Nat := 8
abbrev JOYPAD_L : Nat := 10
abbrev JOYPAD_R : Nat := 11

def BOOT_FRAMES : Int := 600
def REPEAT_DELAY : Int := 24
def REPEAT_RATE : Int := 4
def BTN_COUNT : Nat := 16

/-- One frame's polled joypad snapshot: `inp b` is whether button `b`
reads down (the host keeps it stable for the whole frame). -/
abbrev Input := Nat → Bool

/-- `btn_pressed` from emu_pages.c: returns whether a logical press fires
this frame, together with the updated `held_frames` array.  While the
button is down the counter increments; a press fires on counter 1 and
again from `REPEAT_DELAY` on, every `REPEAT_RATE` frames.  When the
button is up the counter resets to 0. -/
def btn_pressed (inp : Input) (held : Nat → Int) (btn : Nat) :
    Bool × (Nat → Int) :=
  if inp btn then
    let h := held btn + 1
    (decide (h = 1 ∨ (h ≥ REPEAT_DELAY ∧ Int.tmod (h - REPEAT_DELAY) REPEAT_RATE = 0)),
     fun b => if b = btn then h else held b)
  else
    (false, fun b => if b = btn then 0 else held b)

/-- `any_btn_pressed` from emu_pages.c: raw scan of all 16 buttons,
without touching `held_frames`. -/
def any_btn_pressed (inp : Input) : Bool :=
  (List.range BTN_COUNT).any (fun i => inp i)

/-! Each `if (btn_pressed(...))` block of the two input handlers is one
`...Stage...` function; the handler is their exact sequential
composition, in source order. -/

/-- UP block of `handle_toc_input`: single-step cursor move with
incremental-follow scrolling. -/
def tocUp (s : CoreState) : CoreState :=
  let c := if s.tocCursor > 0 then s.tocCursor - 1 else s.tocCursor
  let sc := if c < s.tocScroll then c else s.tocScroll
  { s with tocCursor := c, tocScroll := sc }

/-- DOWN block of `handle_toc_input`. -/
def tocDown (cat : Catalog) (s : CoreState) : CoreState :=
  let c := if s.tocCursor < (cat.count : Int) - 1 then s.tocCursor + 1
           else s.tocCursor
  let sc := if c ≥ s.tocScroll + (CONTENT_ROWS - 3) then c - (CONTENT_ROWS - 3) + 1
            else s.tocScroll
  { s with tocCursor := c, tocScroll := sc }

/-- L block of `handle_toc_input`: page up, snap scroll to cursor. -/
def tocPgUp (s : CoreState) : CoreState :=
  let c := s.tocCursor - (CONTENT_ROWS - 3)
  let c := if c < 0 then 0 else c
  { s with tocCursor := c, tocScroll := c }

/-- R block of `handle_toc_input`: page down, incremental-follow scroll. -/
def tocPgDn (cat : Catalog) (s : CoreState) : CoreState :=
  let c := s.tocCursor + (CONTENT_ROWS - 3)
  let c := if c ≥ (cat.count : Int) then (cat.count : Int) - 1 else c
  let sc := if c ≥ s.tocScroll + (CONTENT_ROWS - 3) then c - (CONTENT_ROWS - 3) + 1
            else s.tocScroll
  { s with tocCursor := c, tocScroll := sc }

/-- A / RIGHT block of `handle_toc_input`: open the page at the cursor. -/
def tocOpen (s : CoreState) : CoreState :=
  { s with currentPage := s.tocCursor, pageScroll := 0, state := CState.page }

/-- LEFT block of `handle_toc_input`: move cursor back one step
(incremental-follow), then open the resulting page. -/
def tocLeft (s : CoreState) : CoreState :=
  let c := if s.tocCursor > 0 then s.tocCursor - 1 else s.tocCursor
  let sc := if c < s.tocScroll then c else s.tocScroll
  { s with tocCursor := c, tocScroll := sc,
           currentPage := c, pageScroll := 0, state := CState.page }

def tocStageUp (inp : Input) (s : CoreState) : CoreState :=
  let r := btn_pressed inp s.heldFrames JOYPAD_UP
  let s := { s with heldFrames := r.2 }
  if r.1 then tocUp s else s

def tocStageDown (cat : Catalog) (inp : Input) (s : CoreState) : CoreState :=
  let r := btn_pressed inp s.heldFrames JOYPAD_DOWN
  let s := { s with heldFrames := r.2 }
  if r.1 then tocDown cat s else s

def tocStageL (inp : Input) (s : CoreState) : CoreState :=
  let r := btn_pressed inp s.heldFrames JOYPAD_L
  let s := { s with heldFrames := r.2 }
  if r.1 then tocPgUp s else s

def tocStageR (cat : Catalog) (inp : Input) (s : CoreState) : CoreState :=
  let r := btn_pressed inp s.heldFrames JOYPAD_R
  let s := { s with heldFrames := r.2 }
  if r.1 then tocPgDn cat s else s

/-- `btn_pressed(A) || btn_pressed(RIGHT)` with C short-circuit: RIGHT's
counter is only touched when A's press did not fire. -/
def tocStageOpen (inp : Input) (s : CoreState) : CoreState :=
  let rA := btn_pressed inp s.heldFrames JOYPAD_A
  let r := if rA.1 then (true, rA.2) else btn_pressed inp rA.2 JOYPAD_RIGHT
  let s := { s with heldFrames := r.2 }
  if r.1 then tocOpen s else s

def tocStageLeft (inp : Input) (s : CoreState) : CoreState :=
  let r := btn_pressed inp s.heldFrames JOYPAD_LEFT
  let s := { s with heldFrames := r.2 }
  if r.1 then tocLeft s else s

/-- `handle_toc_input` from emu_pages.c: the six button blocks in source
order (UP, DOWN, L, R, A‖RIGHT, LEFT). -/
def handle_toc_input (cat : Catalog) (inp : Input) (s : CoreState) : CoreState :=
  tocStageLeft inp (tocStageOpen inp (tocStageR cat inp
    (tocStageL inp (tocStageDown cat inp (tocStageUp inp s)))))

/-- `max_scroll` as computed at the top of `handle_page_input`:
`line_count - CONTENT_ROWS`, floored at 0, for the page current on entry. -/
def pageMaxScroll (cat : Catalog) (s : CoreState) : Int :=
  let ms := (cat.lineCount s.currentPage.toNat : Int) - CONTENT_ROWS
  if ms < 0 then 0 else ms

/-- UP block of `handle_page_input`. -/
def pageUp (s : CoreState) : CoreState :=
  { s with pageScroll := if s.pageScroll > 0 then s.pageScroll - 1
                         else s.pageScroll }

/-- DOWN block of `handle_page_input`. -/
def pageDown (ms : Int) (s : CoreState) : CoreState :=
  { s with pageScroll := if s.pageScroll < ms then s.pageScroll + 1
                         else s.pageScroll }

/-- L block of `handle_page_input`: page up by a full viewport. -/
def pagePgUp (s : CoreState) : CoreState :=
  let p := s.pageScroll - CONTENT_ROWS
  { s with pageScroll := if p < 0 then 0 else p }

/-- R block of `handle_page_input`: page down by a full viewport. -/
def pagePgDn (ms : Int) (s : CoreState) : CoreState :=
  let p := s.pageScroll + CONTENT_ROWS
  { s with pageScroll := if p > ms then ms else p }

/-- LEFT block of `handle_page_input`: previous page with wraparound,
scroll reset. -/
def pagePrev (cat : Catalog) (s : CoreState) : CoreState :=
  let p := s.currentPage - 1
  let p := if p < 0 then (cat.count : Int) - 1 else p
  { s with currentPage := p, pageScroll := 0 }

/-- RIGHT block of `handle_page_input`: next page with wraparound,
scroll reset. -/
def pageNext (cat : Catalog) (s : CoreState) : CoreState :=
  let p := s.currentPage + 1
  let p := if p ≥ (cat.count : Int) then 0 else p
  { s with currentPage := p, pageScroll := 0 }

/-- B / START block of `handle_page_input`: back to the contents screen,
cursor on the current page, scroll adjusted so the cursor is visible. -/
def pageBack (s : CoreState) : CoreState :=
  let c := s.currentPage
  let sc := if c < s.tocScroll then c else s.tocScroll
  let sc := if c ≥ sc + (CONTENT_ROWS - 3) then c - (CONTENT_ROWS - 3) + 1
            else sc
  { s with tocCursor := c, tocScroll := sc, state := CState.toc }

def pageStageUp (inp : Input) (s : CoreState) : CoreState :=
  let r := btn_pressed inp s.heldFrames JOYPAD_UP
  let s := { s with heldFrames := r.2 }
  if r.1 then pageUp s else s

def pageStageDown (ms : Int) (inp : Input) (s : CoreState) : CoreState :=
  let r := btn_pressed inp s.heldFrames JOYPAD_DOWN
  let s := { s with heldFrames := r.2 }
  if r.1 then pageDown ms s else s

def pageStageL (inp : Input) (s : CoreState) : CoreState :=
  let r := btn_pressed inp s.heldFrames JOYPAD_L
  let s := { s with heldFrames := r.2 }
  if r.1 then pagePgUp s else s

def pageStageR (ms : Int) (inp : Input) (s : CoreState) : CoreState :=
  let r := btn_pressed inp s.heldFrames JOYPAD_R
  let s := { s with heldFrames := r.2 }
  if r.1 then pagePgDn ms s else s

def pageStageLeft (cat : Catalog) (inp : Input) (s : CoreState) : CoreState :=
  let r := btn_pressed inp s.heldFrames JOYPAD_LEFT
  let s := { s with heldFrames := r.2 }
  if r.1 then pagePrev cat s else s

def pageStageRight (cat : Catalog) (inp : Input) (s : CoreState) : CoreState :=
  let r := btn_pressed inp s.heldFrames JOYPAD_RIGHT
  let s := { s with heldFrames := r.2 }
  if r.1 then pageNext cat s else s

/-- `btn_pressed(B) || btn_pressed(START)` with C short-circuit. -/
def pageStageBack (inp : Input) (s : CoreState) : CoreState :=
  let rB := btn_pressed inp s.heldFrames JOYPAD_B
  let r := if rB.1 then (true, rB.2) else btn_pressed inp rB.2 JOYPAD_START
  let s := { s with heldFrames := r.2 }
  if r.1 then pageBack s else s

/-- `handle_page_input` from emu_pages.c: `max_scroll` computed once on
entry, then the seven button blocks in source order
(UP, DOWN, L, R, LEFT, RIGHT, B‖START). -/
def handle_page_input (cat : Catalog) (inp : Input) (s : CoreState) : CoreState :=
  let ms := pageMaxScroll cat s
  pageStageBack inp (pageStageRight cat inp (pageStageLeft cat inp
    (pageStageR ms inp (pageStageL inp
      (pageStageDown ms inp (pageStageUp inp s))))))

/-- What one `retro_run` call does, beyond mutating the state: whether
input was polled and whether the video and audio callbacks were invoked. -/
structure RunOut where
  st : CoreState
  polled : Bool
  videoSent : Bool
  audioSent : Bool

/-- `retro_run` from emu_pages.c.  With no game loaded it returns
immediately; otherwise it polls input, advances the screen selected by
`state` (boot timer / TOC input / page input), renders it into the
framebuffer, and delivers one video frame and one silent audio block. -/
def retro_run (a : Assets) (cat : Catalog) (inp : Input) (s : CoreState) :
    RunOut :=
  if s.gameLoaded = false then
    { st := s, polled := false, videoSent := false, audioSent := false }
  else
    let s1 :=
      match s.state with
      | CState.boot =>
        let t := s.bootTimer + 1
        let s := { s with bootTimer := t }
        let s := if t ≥ BOOT_FRAMES ∨ any_btn_pressed inp = true then
            { s with state := CState.toc, heldFrames := fun _ => 0 }
          else s
        { s with fb := render_boot a t s.fb }
      | CState.toc =>
        let s := handle_toc_input cat inp s
        { s with fb := render_toc a cat s.tocCursor s.tocScroll s.fb }
      | CState.page =>
        let s := handle_page_input cat inp s
        { s with fb := render_page a cat s.currentPage s.pageScroll s.fb }
    { st := s1, polled := true, videoSent := true, audioSent := true }

/-- The global state right after `retro_init`: zeroed framebuffer and
counters, `STATE_BOOT`, no game loaded. -/
def initState : CoreState :=
  { state := CState.boot, gameLoaded := false, bootTimer := 0,
    tocCursor := 0, tocScroll := 0, currentPage := 0, pageScroll := 0,
    heldFrames := fun _ => 0, fb := fun _ => 0 }

/-- `retro_load_game` (successful path) from emu_pages.c: resets the
session state, clears `held_frames`, marks the game loaded.  The
framebuffer contents are untouched (`render_init` only stores the
pointer). -/
def retro_load_game (s : CoreState) : CoreState :=
  { s with state := CState.boot, bootTimer := 0, tocCursor := 0,
           tocScroll := 0, currentPage := 0, pageScroll := 0,
           heldFrames := fun _ => 0, gameLoaded := true }

/-- `retro_unload_game` from emu_pages.c. -/
def retro_unload_game (s : CoreState) : CoreState :=
  { s with gameLoaded := false }

/-- `retro_reset` from emu_pages.c (note: it does not clear
`held_frames`). -/
def retro_reset (s : CoreState) : CoreState :=
  { s with state := CState.boot, bootTimer := 0, tocCursor := 0,
           tocScroll := 0, currentPage := 0, pageScroll := 0 }

/-- Run one `retro_run` per input snapshot, in order. -/
def runFrames (a : Assets) (cat : Catalog) (inps : List Input)
    (s : CoreState) : CoreState :=
  inps.foldl (fun s inp => (retro_run a cat inp s).st) s

/-- Input snapshot with exactly one button down. -/
def onlyBtn (b : Nat) : Input := fun i => decide (i = b)

/-- Input snapshot with no button down. -/
def noBtn : Input := fun _ => false

/-! ## Concrete states, inputs and catalogs used by witnesses -/

/-- Input snapshot with every button down. -/
def allDown : Input := fun _ => true

/-- All-zero `held_frames` array. -/
def held0 : Nat → Int := fun _ => 0

/-- Holding one button from a cleared counter: after `n` frames with the
button continuously down, `holdSim n` is the counter value together with
the number of logical presses `btn_pressed` has fired so far. -/
def holdSim : Nat → Int × Nat
  | 0 => (0, 0)
  | n + 1 =>
    let p := holdSim n
    let r := btn_pressed allDown (fun _ => p.1) JOYPAD_A
    (r.2 JOYPAD_A, p.2 + (if r.1 then 1 else 0))

/-- Concrete assets used to witness theorems: an all-zero font and an
empty sprite. -/
def assets0 : Assets :=
  { font := fun _ _ => 0, mascotW := 0, mascotH := 0, mascotPx := fun _ => 0 }

/-- Concrete three-document catalog used to witness theorems. -/
def cat3 : Catalog :=
  { count := 3, title := fun _ => strBytes "PAGE",
    lineCount := fun _ => 40,
    line := fun _ _ => { type := LineType.body, text := strBytes "LINE" } }

/-- A 30-document catalog. -/
def cat30 : Catalog :=
  { count := 30, title := fun _ => strBytes "T",
    lineCount := fun _ => 10,
    line := fun _ _ => { type := LineType.body, text := strBytes "L" } }

/-- All-zero framebuffer. -/
def fbZero : FB := fun _ => 0

/-- All-one framebuffer. -/
def fbOne : FB := fun _ => 1

/-- Reachable Contents-screen state over a 30-document catalog used to
refute C3: cursor 0, scroll 0, all counters clear. -/
def sToc : CoreState :=
  { state := CState.toc, gameLoaded := true, bootTimer := 1,
    tocCursor := 0, tocScroll := 0, currentPage := 0, pageScroll := 0,
    heldFrames := held0, fb := fbZero }

/-- Concrete Viewing-screen state used to witness theorems: document 0
open, scroll 0, all counters clear. -/
def sPage : CoreState :=
  { state := CState.page, gameLoaded := true, bootTimer := 1,
    tocCursor := 0, tocScroll := 0, currentPage := 0, pageScroll := 0,
    heldFrames := held0, fb := fbZero }

/-! ## Navigation invariants (claim C1) -/

/-- The spec's state invariants: Contents cursor in `[0, N-1]`, Contents
scroll in `[0, max 0 (N - (CONTENT_ROWS - 3))]`, current document in
`[0, N-1]`, Viewing scroll in
`[0, max 0 (lineCount - CONTENT_ROWS)]` for the current document. -/
def Inv (cat : Catalog) (s : CoreState) : Prop :=
  0 ≤ s.tocCursor ∧ s.tocCursor < (cat.count : Int) ∧
  0 ≤ s.tocScroll ∧ s.tocScroll ≤ max 0 ((cat.count : Int) - (CONTENT_ROWS - 3)) ∧
  0 ≤ s.currentPage ∧ s.currentPage < (cat.count : Int) ∧
  0 ≤ s.pageScroll ∧
  s.pageScroll ≤ max 0 ((cat.lineCount s.currentPage.toNat : Int) - CONTENT_ROWS)

lemma pageMaxScroll_eq (cat : Catalog) (s : CoreState) :
    pageMaxScroll cat s =
      max 0 ((cat.lineCount s.currentPage.toNat : Int) - CONTENT_ROWS) := by
  simp only [pageMaxScroll]
  split_ifs <;> omega

lemma inv_tocUp (cat : Catalog) (s : CoreState) (h : Inv cat s) :
    Inv cat (tocUp s) := by
  simp only [Inv, tocUp, CONTENT_ROWS] at *
  split_ifs at * <;> omega

lemma inv_tocDown (cat : Catalog) (s : CoreState) (h : Inv cat s) :
    Inv cat (tocDown cat s) := by
  simp only [Inv, tocDown, CONTENT_ROWS] at *
  split_ifs at * <;> omega

lemma inv_tocPgUp (cat : Catalog) (s : CoreState) (hN : 0 < cat.count)
    (h : Inv cat s) : Inv cat (tocPgUp s) := by
  simp only [Inv, tocPgUp, CONTENT_ROWS] at *
  split_ifs at * <;> omega

lemma inv_tocPgDn (cat : Catalog) (s : CoreState) (hN : 0 < cat.count)
    (h : Inv cat s) : Inv cat (tocPgDn cat s) := by
  simp only [Inv, tocPgDn, CONTENT_ROWS] at *
  split_ifs at * <;> omega

lemma inv_tocOpen (cat : Catalog) (s : CoreState) (h : Inv cat s) :
    Inv cat (tocOpen s) := by
  simp only [Inv, tocOpen, CONTENT_ROWS] at *
  omega

lemma inv_tocLeft (cat : Catalog) (s : CoreState) (h : Inv cat s) :
    Inv cat (tocLeft s) := by
  simp only [Inv, tocLeft, CONTENT_ROWS] at *
  split_ifs at * <;> omega

lemma inv_tocStageUp (cat : Catalog) (inp : Input) (s : CoreState)
    (h : Inv cat s) : Inv cat (tocStageUp inp s) := by
  simp only [tocStageUp]
  split
  · exact inv_tocUp cat _ h
  · exact h

lemma inv_tocStageDown (cat : Catalog) (inp : Input) (s : CoreState)
    (h : Inv cat s) : Inv cat (tocStageDown cat inp s) := by
  simp only [tocStageDown]
  split
  · exact inv_tocDown cat _ h
  · exact h

lemma inv_tocStageL (cat : Catalog) (inp : Input) (s : CoreState)
    (hN : 0 < cat.count) (h : Inv cat s) : Inv cat (tocStageL inp s) := by
  simp only [tocStageL]
  split
  · exact inv_tocPgUp cat _ hN h
  · exact h

lemma inv_tocStageR (cat : Catalog) (inp : Input) (s : CoreState)
    (hN : 0 < cat.count) (h : Inv cat s) : Inv cat (tocStageR cat inp s) := by
  simp only [tocStageR]
  split
  · exact inv_tocPgDn cat _ hN h
  · exact h

lemma inv_tocStageOpen (cat : Catalog) (inp : Input) (s : CoreState)
    (h : Inv cat s) : Inv cat (tocStageOpen inp s) := by
  simp only [tocStageOpen]
  split_ifs <;> first | exact inv_tocOpen cat _ h | exact h

lemma inv_tocStageLeft (cat : Catalog) (inp : Input) (s : CoreState)
    (h : Inv cat s) : Inv cat (tocStageLeft inp s) := by
  simp only [tocStageLeft]
  split
  · exact inv_tocLeft cat _ h
  · exact h

lemma inv_handle_toc (cat : Catalog) (inp : Input) (s : CoreState)
    (hN : 0 < cat.count) (h : Inv cat s) :
    Inv cat (handle_toc_input cat inp s) := by
  unfold handle_toc_input
  exact inv_tocStageLeft cat inp _ (inv_tocStageOpen cat inp _
    (inv_tocStageR cat inp _ hN (inv_tocStageL cat inp _ hN
      (inv_tocStageDown cat inp _ (inv_tocStageUp cat inp _ h)))))

lemma inv_pageStageUp (cat : Catalog) (inp : Input) (s : CoreState)
    (h : Inv cat s) :
    Inv cat (pageStageUp inp s) ∧ (pageStageUp inp s).currentPage = s.currentPage := by
  simp only [pageStageUp, pageUp]
  constructor
  · split
    · simp only [Inv, CONTENT_ROWS] at *
      split_ifs at * <;> omega
    · exact h
  · split <;> rfl

lemma inv_pageStageDown (cat : Catalog) (ms : Int) (inp : Input) (s : CoreState)
    (h : Inv cat s)
    (hms : ms = max 0 ((cat.lineCount s.currentPage.toNat : Int) - CONTENT_ROWS)) :
    Inv cat (pageStageDown ms inp s) ∧
      (pageStageDown ms inp s).currentPage = s.currentPage := by
  simp only [pageStageDown, pageDown]
  constructor
  · split
    · simp only [Inv, CONTENT_ROWS] at *
      split_ifs at * <;> omega
    · exact h
  · split <;> rfl

lemma inv_pageStageL (cat : Catalog) (inp : Input) (s : CoreState)
    (h : Inv cat s) :
    Inv cat (pageStageL inp s) ∧ (pageStageL inp s).currentPage = s.currentPage := by
  simp only [pageStageL, pagePgUp]
  constructor
  · split
    · simp only [Inv, CONTENT_ROWS] at *
      split_ifs at * <;> omega
    · exact h
  · split <;> rfl

lemma inv_pageStageR (cat : Catalog) (ms : Int) (inp : Input) (s : CoreState)
    (h : Inv cat s)
    (hms : ms = max 0 ((cat.lineCount s.currentPage.toNat : Int) - CONTENT_ROWS)) :
    Inv cat (pageStageR ms inp s) ∧
      (pageStageR ms inp s).currentPage = s.currentPage := by
  simp only [pageStageR, pagePgDn]
  constructor
  · split
    · simp only [Inv, CONTENT_ROWS] at *
      split_ifs at * <;> omega
    · exact h
  · split <;> rfl

lemma inv_pageStageLeft (cat : Catalog) (inp : Input) (s : CoreState)
    (hN : 0 < cat.count) (h : Inv cat s) : Inv cat (pageStageLeft cat inp s) := by
  simp only [pageStageLeft, pagePrev]
  split
  · simp only [Inv, CONTENT_ROWS] at *
    split_ifs at * <;> omega
  · exact h

lemma inv_pageStageRight (cat : Catalog) (inp : Input) (s : CoreState)
    (h : Inv cat s) : Inv cat (pageStageRight cat inp s) := by
  simp only [pageStageRight, pageNext]
  split
  · simp only [Inv, CONTENT_ROWS] at *
    split_ifs at * <;> omega
  · exact h

lemma inv_pageBack (cat : Catalog) (s : CoreState) (h : Inv cat s) :
    Inv cat (pageBack s) := by
  simp only [Inv, pageBack, CONTENT_ROWS] at *
  split_ifs at * <;> omega

lemma inv_pageStageBack (cat : Catalog) (inp : Input) (s : CoreState)
    (h : Inv cat s) : Inv cat (pageStageBack inp s) := by
  simp only [pageStageBack]
  split_ifs <;> first | exact inv_pageBack cat _ h | exact h

lemma inv_handle_page (cat : Catalog) (inp : Input) (s : CoreState)
    (hN : 0 < cat.count) (h : Inv cat s) :
    Inv cat (handle_page_input cat inp s) := by
  unfold handle_page_input
  obtain ⟨h1, e1⟩ := inv_pageStageUp cat inp s h
  obtain ⟨h2, e2⟩ := inv_pageStageDown cat (pageMaxScroll cat s) inp _ h1
    (by rw [e1, pageMaxScroll_eq])
  obtain ⟨h3, e3⟩ := inv_pageStageL cat inp _ h2
  obtain ⟨h4, _⟩ := inv_pageStageR cat (pageMaxScroll cat s) inp _ h3
    (by rw [e3, e2, e1, pageMaxScroll_eq])
  exact inv_pageStageBack cat inp _
    (inv_pageStageRight cat inp _ (inv_pageStageLeft cat inp _ hN h4))

lemma inv_retro_run (a : Assets) (cat : Catalog) (inp : Input) (s : CoreState)
    (hN : 0 < cat.count) (h : Inv cat s) :
    Inv cat (retro_run a cat inp s).st := by
  unfold retro_run
  split
  · exact h
  · split
    · simp only [Inv] at h ⊢
      split_ifs <;> exact h
    · exact inv_handle_toc cat inp s hN h
    · exact inv_handle_page cat inp s hN h

lemma inv_load (cat : Catalog) (s0 : CoreState) (hN : 0 < cat.count) :
    Inv cat (retro_load_game s0) := by
  simp only [Inv, retro_load_game]
  omega

lemma inv_runFrames (a : Assets) (cat : Catalog) (hN : 0 < cat.count)
    (inps : List Input) (s : CoreState) (h : Inv cat s) :
    Inv cat (runFrames a cat inps s) := by
  induction inps generalizing s with
  | nil => exact h
  | cons i rest ih =>
    unfold runFrames
    rw [List.foldl_cons]
    exact ih _ (inv_retro_run a cat i s hN h)

/-- C1: for every catalog with at least one document, the navigation
invariants hold after a (re)load and are preserved by every `retro_run`
frame, for every input sequence: the Contents cursor stays in `[0, N-1]`,
the Contents scroll in `[0, max 0 (N - (CONTENT_ROWS - 3))]`, the current
document in `[0, N-1]`, and the Viewing scroll in
`[0, max 0 (lineCount - CONTENT_ROWS)]` for the current document — after
every single-step, page-step, open, prev/next and back operation. -/
theorem c1_state_invariants (a : Assets) (cat : Catalog) (hN : 0 < cat.count) :
    (∀ (s : CoreState) (inp : Input),
      Inv cat s → Inv cat (retro_run a cat inp s).st) ∧
    (∀ (s0 : CoreState) (inps : List Input),
      Inv cat (runFrames a cat inps (retro_load_game s0))) := by
  constructor
  · exact fun s inp h => inv_retro_run a cat inp s hN h
  · exact fun s0 inps => inv_runFrames a cat hN inps _ (inv_load cat s0 hN)

/-- Witness for C1 at a concrete catalog and input sequence. -/
theorem c1_state_invariants_witness :
    Inv cat3 (runFrames assets0 cat3 [fun _ => true, onlyBtn JOYPAD_DOWN]
      (retro_load_game initState)) :=
  (c1_state_invariants assets0 cat3 (by decide)).2 initState
    [fun _ => true, onlyBtn JOYPAD_DOWN]

/-! ## Input auto-repeat (claim C2) -/







/-- C2: while a button reads down its held-frame counter increments, and
the logical press fires exactly when the incremented counter equals 1 or
is at least 24 with `(counter - 24) % 4 = 0`; when the button reads up
the counter resets to 0 and no press fires.  Consequently a hold of 23
consecutive frames yields exactly 1 press, 24 frames yield 2, and 28
frames yield 3. -/
theorem c2_input_repeat :
    (∀ (held : Nat → Int) (inp : Input) (b : Nat), inp b = true →
      ((btn_pressed inp held b).1 = true ↔
        (held b + 1 = 1 ∨
          (held b + 1 ≥ 24 ∧ Int.tmod (held b + 1 - 24) 4 = 0))) ∧
      (btn_pressed inp held b).2 b = held b + 1) ∧
    (∀ (held : Nat → Int) (inp : Input) (b : Nat), inp b = false →
      (btn_pressed inp held b).1 = false ∧ (btn_pressed inp held b).2 b = 0) ∧
    (holdSim 23).2 = 1 ∧ (holdSim 24).2 = 2 ∧ (holdSim 28).2 = 3 := by
  refine ⟨?_, ?_, by decide, by decide, by decide⟩
  · intro held inp b hb
    simp [btn_pressed, hb, REPEAT_DELAY, REPEAT_RATE]
  · intro held inp b hb
    simp [btn_pressed, hb]

/-- Witness for C2: the fire condition at a concrete zero counter, and
the 23-frame hold count. -/
theorem c2_input_repeat_witness :
    (((btn_pressed allDown held0 JOYPAD_A).1 = true ↔
      (held0 JOYPAD_A + 1 = 1 ∨
        (held0 JOYPAD_A + 1 ≥ 24 ∧
          Int.tmod (held0 JOYPAD_A + 1 - 24) 4 = 0))) ∧
      (btn_pressed allDown held0 JOYPAD_A).2 JOYPAD_A = held0 JOYPAD_A + 1) ∧
    (holdSim 23).2 = 1 :=
  ⟨c2_input_repeat.1 held0 allDown JOYPAD_A rfl, c2_input_repeat.2.2.1⟩

/-! ## Boot renderer purity (claim C8) -/

/-- C8: for every frame counter in `[0, 600)`, `render_boot` is a pure
function of the frame counter (and the fixed build-time assets): starting
from any two framebuffer contents it produces identical framebuffers,
because it repaints every pixel from scratch each frame. -/
theorem c8_render_boot_pure (a : Assets) (f : Int) (hf0 : 0 ≤ f)
    (hf : f < 600) (fb1 fb2 : FB) :
    render_boot a f fb1 = render_boot a f fb2 := by
  unfold render_boot
  exact congrArg (render_boot_body a f)
    (rfl : render_clear fb1 = render_clear fb2)





/-- Witness for C8 at frame 5 from two different framebuffers. -/
theorem c8_render_boot_pure_witness :
    render_boot assets0 5 fbZero = render_boot assets0 5 fbOne :=
  c8_render_boot_pure assets0 5 (by decide) (by decide) fbZero fbOne

/-! ## Boot exit transition (claim C9) -/

/-- C9: in the Booting state, one frame increments the boot counter and
moves to Contents exactly when the incremented counter reaches
`BOOT_FRAMES = 600` or any joypad button reads down this frame; on that
transition every held-frame counter is cleared to 0 (so the triggering
press is not reinterpreted as input on the Contents screen), otherwise
the machine stays in Booting; cursors and scroll offsets are untouched
either way. -/
theorem c9_boot_exit (a : Assets) (cat : Catalog) (inp : Input)
    (s : CoreState) (hL : s.gameLoaded = true) (hB : s.state = CState.boot) :
    ((retro_run a cat inp s).st.state = CState.toc ↔
      (s.bootTimer + 1 ≥ BOOT_FRAMES ∨ any_btn_pressed inp = true)) ∧
    ((retro_run a cat inp s).st.state = CState.toc →
      ∀ b, (retro_run a cat inp s).st.heldFrames b = 0) ∧
    (¬(s.bootTimer + 1 ≥ BOOT_FRAMES ∨ any_btn_pressed inp = true) →
      (retro_run a cat inp s).st.state = CState.boot) ∧
    (retro_run a cat inp s).st.bootTimer = s.bootTimer + 1 ∧
    (retro_run a cat inp s).st.tocCursor = s.tocCursor ∧
    (retro_run a cat inp s).st.tocScroll = s.tocScroll ∧
    (retro_run a cat inp s).st.currentPage = s.currentPage ∧
    (retro_run a cat inp s).st.pageScroll = s.pageScroll := by
  simp only [retro_run, hL, hB]
  split_ifs with hc <;> simp_all

/-- Witness for C9: skipping the boot screen with a button press on the
first frame after load. -/
theorem c9_boot_exit_witness :
    ((retro_run assets0 cat3 allDown (retro_load_game initState)).st.state
        = CState.toc ↔
      ((retro_load_game initState).bootTimer + 1 ≥ BOOT_FRAMES ∨
        any_btn_pressed allDown = true)) ∧
    ((retro_run assets0 cat3 allDown (retro_load_game initState)).st.state
        = CState.toc →
      ∀ b, (retro_run assets0 cat3 allDown
        (retro_load_game initState)).st.heldFrames b = 0) ∧
    (¬((retro_load_game initState).bootTimer + 1 ≥ BOOT_FRAMES ∨
        any_btn_pressed allDown = true) →
      (retro_run assets0 cat3 allDown (retro_load_game initState)).st.state
        = CState.boot) ∧
    (retro_run assets0 cat3 allDown (retro_load_game initState)).st.bootTimer
      = (retro_load_game initState).bootTimer + 1 ∧
    (retro_run assets0 cat3 allDown (retro_load_game initState)).st.tocCursor
      = (retro_load_game initState).tocCursor ∧
    (retro_run assets0 cat3 allDown (retro_load_game initState)).st.tocScroll
      = (retro_load_game initState).tocScroll ∧
    (retro_run assets0 cat3 allDown (retro_load_game initState)).st.currentPage
      = (retro_load_game initState).currentPage ∧
    (retro_run assets0 cat3 allDown (retro_load_game initState)).st.pageScroll
      = (retro_load_game initState).pageScroll :=
  c9_boot_exit assets0 cat3 allDown (retro_load_game initState) rfl rfl

/-! ## retro_run with no game loaded (claim C10) -/

/-- C10: when no game is loaded, `retro_run` returns immediately: input
is not polled, no video or audio callback is invoked, and the entire
session state — navigation state, boot timer, cursors, scroll offsets,
held-frame counters and framebuffer — is left unchanged. -/
theorem c10_run_without_game (a : Assets) (cat : Catalog) (inp : Input)
    (s : CoreState) (h : s.gameLoaded = false) :
    retro_run a cat inp s =
      { st := s, polled := false, videoSent := false, audioSent := false } := by
  unfold retro_run
  rw [h]
  simp

/-- Witness for C10 at the freshly initialised (never loaded) state. -/
theorem c10_run_without_game_witness :
    retro_run assets0 cat3 allDown initState =
      { st := initState, polled := false, videoSent := false,
        audioSent := false } :=
  c10_run_without_game assets0 cat3 allDown initState rfl

/-! ## Opening a document from Contents (claim C6) -/

/-- C6: in the Contents screen, a frame whose only input is Accept (A),
or one whose only input is Right, moves to the Viewing state with the
viewer scroll reset to 0 and the current document equal to the Contents
cursor at the time of the press (the cursor itself does not move). -/
theorem c6_open_document (a : Assets) (cat : Catalog) (s : CoreState)
    (hL : s.gameLoaded = true) (hT : s.state = CState.toc)
    (hA : s.heldFrames JOYPAD_A = 0) (hR : s.heldFrames JOYPAD_RIGHT = 0) :
    ((retro_run a cat (onlyBtn JOYPAD_A) s).st.state = CState.page ∧
     (retro_run a cat (onlyBtn JOYPAD_A) s).st.currentPage = s.tocCursor ∧
     (retro_run a cat (onlyBtn JOYPAD_A) s).st.pageScroll = 0 ∧
     (retro_run a cat (onlyBtn JOYPAD_A) s).st.tocCursor = s.tocCursor) ∧
    ((retro_run a cat (onlyBtn JOYPAD_RIGHT) s).st.state = CState.page ∧
     (retro_run a cat (onlyBtn JOYPAD_RIGHT) s).st.currentPage = s.tocCursor ∧
     (retro_run a cat (onlyBtn JOYPAD_RIGHT) s).st.pageScroll = 0 ∧
     (retro_run a cat (onlyBtn JOYPAD_RIGHT) s).st.tocCursor = s.tocCursor) := by
  simp only [JOYPAD_A, JOYPAD_RIGHT] at hA hR
  simp [retro_run, hL, hT, handle_toc_input, tocStageUp, tocStageDown,
    tocStageL, tocStageR, tocStageOpen, tocStageLeft, tocUp, tocDown,
    tocPgUp, tocPgDn, tocOpen, tocLeft, btn_pressed, onlyBtn,
    JOYPAD_UP, JOYPAD_DOWN, JOYPAD_LEFT, JOYPAD_RIGHT, JOYPAD_A,
    JOYPAD_L, JOYPAD_R, REPEAT_DELAY, REPEAT_RATE, hA, hR]

/-! ## Contents Left = select-previous-then-open (claim C5) -/

/-- C5: in the Contents screen, a frame whose only input is Left moves
the cursor back one step with incremental-follow scrolling and then also
opens the resulting document: the state becomes Viewing, the current
document is the new cursor value, and the viewer scroll is reset to 0. -/
theorem c5_left_select_then_open (a : Assets) (cat : Catalog) (s : CoreState)
    (hL : s.gameLoaded = true) (hT : s.state = CState.toc)
    (hLf : s.heldFrames JOYPAD_LEFT = 0) :
    (retro_run a cat (onlyBtn JOYPAD_LEFT) s).st.state = CState.page ∧
    (retro_run a cat (onlyBtn JOYPAD_LEFT) s).st.tocCursor =
      (if s.tocCursor > 0 then s.tocCursor - 1 else s.tocCursor) ∧
    (retro_run a cat (onlyBtn JOYPAD_LEFT) s).st.tocScroll =
      (if (retro_run a cat (onlyBtn JOYPAD_LEFT) s).st.tocCursor < s.tocScroll
       then (retro_run a cat (onlyBtn JOYPAD_LEFT) s).st.tocCursor
       else s.tocScroll) ∧
    (retro_run a cat (onlyBtn JOYPAD_LEFT) s).st.currentPage =
      (retro_run a cat (onlyBtn JOYPAD_LEFT) s).st.tocCursor ∧
    (retro_run a cat (onlyBtn JOYPAD_LEFT) s).st.pageScroll = 0 := by
  simp only [JOYPAD_LEFT] at hLf
  simp [retro_run, hL, hT, handle_toc_input, tocStageUp, tocStageDown,
    tocStageL, tocStageR, tocStageOpen, tocStageLeft, tocUp, tocDown,
    tocPgUp, tocPgDn, tocOpen, tocLeft, btn_pressed, onlyBtn,
    JOYPAD_UP, JOYPAD_DOWN, JOYPAD_LEFT, JOYPAD_RIGHT, JOYPAD_A,
    JOYPAD_L, JOYPAD_R, REPEAT_DELAY, REPEAT_RATE, hLf]

/-! ## Single-stage evaluation lemmas for the page-input handler -/

lemma btn_pressed_release (inp : Input) (held : Nat → Int) (btn : Nat)
    (h : inp btn = false) :
    btn_pressed inp held btn =
      (false, fun b => if b = btn then 0 else held b) := by
  simp [btn_pressed, h]

lemma btn_pressed_tap (inp : Input) (held : Nat → Int) (btn : Nat)
    (h : inp btn = true) (hh : held btn = 0) :
    btn_pressed inp held btn =
      (true, fun b => if b = btn then 1 else held b) := by
  simp [btn_pressed, h, hh, REPEAT_DELAY, REPEAT_RATE]

lemma pageStageUp_skip (inp : Input) (s : CoreState)
    (h : inp JOYPAD_UP = false) :
    pageStageUp inp s =
      { s with heldFrames := fun b => if b = JOYPAD_UP then 0
                                      else s.heldFrames b } := by
  simp [pageStageUp, btn_pressed_release inp s.heldFrames JOYPAD_UP h]

lemma pageStageDown_skip (ms : Int) (inp : Input) (s : CoreState)
    (h : inp JOYPAD_DOWN = false) :
    pageStageDown ms inp s =
      { s with heldFrames := fun b => if b = JOYPAD_DOWN then 0
                                      else s.heldFrames b } := by
  simp [pageStageDown, btn_pressed_release inp s.heldFrames JOYPAD_DOWN h]

lemma pageStageL_skip (inp : Input) (s : CoreState)
    (h : inp JOYPAD_L = false) :
    pageStageL inp s =
      { s with heldFrames := fun b => if b = JOYPAD_L then 0
                                      else s.heldFrames b } := by
  simp [pageStageL, btn_pressed_release inp s.heldFrames JOYPAD_L h]

lemma pageStageR_skip (ms : Int) (inp : Input) (s : CoreState)
    (h : inp JOYPAD_R = false) :
    pageStageR ms inp s =
      { s with heldFrames := fun b => if b = JOYPAD_R then 0
                                      else s.heldFrames b } := by
  simp [pageStageR, btn_pressed_release inp s.heldFrames JOYPAD_R h]

lemma pageStageLeft_skip (cat : Catalog) (inp : Input) (s : CoreState)
    (h : inp JOYPAD_LEFT = false) :
    pageStageLeft cat inp s =
      { s with heldFrames := fun b => if b = JOYPAD_LEFT then 0
                                      else s.heldFrames b } := by
  simp [pageStageLeft, btn_pressed_release inp s.heldFrames JOYPAD_LEFT h]

lemma pageStageRight_skip (cat : Catalog) (inp : Input) (s : CoreState)
    (h : inp JOYPAD_RIGHT = false) :
    pageStageRight cat inp s =
      { s with heldFrames := fun b => if b = JOYPAD_RIGHT then 0
                                      else s.heldFrames b } := by
  simp [pageStageRight, btn_pressed_release inp s.heldFrames JOYPAD_RIGHT h]

lemma pageStageBack_skip (inp : Input) (s : CoreState)
    (hB : inp JOYPAD_B = false) (hS : inp JOYPAD_START = false) :
    pageStageBack inp s =
      { s with heldFrames := fun b =>
          if b = JOYPAD_START then 0
          else if b = JOYPAD_B then 0 else s.heldFrames b } := by
  simp [pageStageBack, btn_pressed_release, hB, hS]

lemma pageStageLeft_fire (cat : Catalog) (inp : Input) (s : CoreState)
    (h : inp JOYPAD_LEFT = true) (hh : s.heldFrames JOYPAD_LEFT = 0) :
    pageStageLeft cat inp s =
      pagePrev cat { s with heldFrames := fun b =>
        if b = JOYPAD_LEFT then 1 else s.heldFrames b } := by
  simp [pageStageLeft, btn_pressed_tap inp s.heldFrames JOYPAD_LEFT h hh]

lemma pageStageRight_fire (cat : Catalog) (inp : Input) (s : CoreState)
    (h : inp JOYPAD_RIGHT = true) (hh : s.heldFrames JOYPAD_RIGHT = 0) :
    pageStageRight cat inp s =
      pageNext cat { s with heldFrames := fun b =>
        if b = JOYPAD_RIGHT then 1 else s.heldFrames b } := by
  simp [pageStageRight, btn_pressed_tap inp s.heldFrames JOYPAD_RIGHT h hh]

lemma pageStageBack_fireB (inp : Input) (s : CoreState)
    (h : inp JOYPAD_B = true) (hh : s.heldFrames JOYPAD_B = 0) :
    pageStageBack inp s =
      pageBack { s with heldFrames := fun b =>
        if b = JOYPAD_B then 1 else s.heldFrames b } := by
  simp [pageStageBack, btn_pressed_tap inp s.heldFrames JOYPAD_B h hh]

lemma pageStageBack_fireStart (inp : Input) (s : CoreState)
    (hB : inp JOYPAD_B = false) (h : inp JOYPAD_START = true)
    (hh : s.heldFrames JOYPAD_START = 0) :
    pageStageBack inp s =
      pageBack { s with heldFrames := fun b =>
        if b = JOYPAD_START then 1
        else if b = JOYPAD_B then 0 else s.heldFrames b } := by
  simp [pageStageBack, btn_pressed_release inp s.heldFrames JOYPAD_B hB,
    btn_pressed_tap, h, hh, JOYPAD_B, JOYPAD_START]

/-- Full effect of one `handle_page_input` frame whose only input is
LEFT (held-counter 0): the previous-page block fires, every other block
only updates its counter. -/
lemma handle_page_onlyLeft (cat : Catalog) (s : CoreState)
    (hLf : s.heldFrames JOYPAD_LEFT = 0) :
    handle_page_input cat (onlyBtn JOYPAD_LEFT) s =
      { pagePrev cat s with heldFrames := (fun b =>
          if b = JOYPAD_START then 0
          else if b = JOYPAD_B then 0
          else if b = JOYPAD_RIGHT then 0
          else if b = JOYPAD_LEFT then 1
          else if b = JOYPAD_R then 0
          else if b = JOYPAD_L then 0
          else if b = JOYPAD_DOWN then 0
          else if b = JOYPAD_UP then 0
          else s.heldFrames b) } := by
  have u4 : onlyBtn JOYPAD_LEFT JOYPAD_UP = false := rfl
  have u5 : onlyBtn JOYPAD_LEFT JOYPAD_DOWN = false := rfl
  have u10 : onlyBtn JOYPAD_LEFT JOYPAD_L = false := rfl
  have u11 : onlyBtn JOYPAD_LEFT JOYPAD_R = false := rfl
  have u6 : onlyBtn JOYPAD_LEFT JOYPAD_LEFT = true := rfl
  have u7 : onlyBtn JOYPAD_LEFT JOYPAD_RIGHT = false := rfl
  have u0 : onlyBtn JOYPAD_LEFT JOYPAD_B = false := rfl
  have u3 : onlyBtn JOYPAD_LEFT JOYPAD_START = false := rfl
  simp [handle_page_input, pageStageUp_skip, pageStageDown_skip,
    pageStageL_skip, pageStageR_skip, pageStageLeft_fire, pageStageRight_skip,
    pageStageBack_skip, u4, u5, u10, u11, u6, u7, u0, u3, hLf, pagePrev]

/-- Full effect of one `handle_page_input` frame whose only input is
RIGHT (held-counter 0): the next-page block fires. -/
lemma handle_page_onlyRight (cat : Catalog) (s : CoreState)
    (hRt : s.heldFrames JOYPAD_RIGHT = 0) :
    handle_page_input cat (onlyBtn JOYPAD_RIGHT) s =
      { pageNext cat s with heldFrames := (fun b =>
          if b = JOYPAD_START then 0
          else if b = JOYPAD_B then 0
          else if b = JOYPAD_RIGHT then 1
          else if b = JOYPAD_LEFT then 0
          else if b = JOYPAD_R then 0
          else if b = JOYPAD_L then 0
          else if b = JOYPAD_DOWN then 0
          else if b = JOYPAD_UP then 0
          else s.heldFrames b) } := by
  have u4 : onlyBtn JOYPAD_RIGHT JOYPAD_UP = false := rfl
  have u5 : onlyBtn JOYPAD_RIGHT JOYPAD_DOWN = false := rfl
  have u10 : onlyBtn JOYPAD_RIGHT JOYPAD_L = false := rfl
  have u11 : onlyBtn JOYPAD_RIGHT JOYPAD_R = false := rfl
  have u6 : onlyBtn JOYPAD_RIGHT JOYPAD_LEFT = false := rfl
  have u7 : onlyBtn JOYPAD_RIGHT JOYPAD_RIGHT = true := rfl
  have u0 : onlyBtn JOYPAD_RIGHT JOYPAD_B = false := rfl
  have u3 : onlyBtn JOYPAD_RIGHT JOYPAD_START = false := rfl
  simp [handle_page_input, pageStageUp_skip, pageStageDown_skip,
    pageStageL_skip, pageStageR_skip, pageStageLeft_skip, pageStageRight_fire,
    pageStageBack_skip, u4, u5, u10, u11, u6, u7, u0, u3, hRt, pageNext]

/-- Full effect of one `handle_page_input` frame whose only input is B
(held-counter 0): the back block fires (START's counter is untouched by
the short-circuit). -/
lemma handle_page_onlyB (cat : Catalog) (s : CoreState)
    (hBb : s.heldFrames JOYPAD_B = 0) :
    handle_page_input cat (onlyBtn JOYPAD_B) s =
      { pageBack s with heldFrames := (fun b =>
          if b = JOYPAD_B then 1
          else if b = JOYPAD_RIGHT then 0
          else if b = JOYPAD_LEFT then 0
          else if b = JOYPAD_R then 0
          else if b = JOYPAD_L then 0
          else if b = JOYPAD_DOWN then 0
          else if b = JOYPAD_UP then 0
          else s.heldFrames b) } := by
  have u4 : onlyBtn JOYPAD_B JOYPAD_UP = false := rfl
  have u5 : onlyBtn JOYPAD_B JOYPAD_DOWN = false := rfl
  have u10 : onlyBtn JOYPAD_B JOYPAD_L = false := rfl
  have u11 : onlyBtn JOYPAD_B JOYPAD_R = false := rfl
  have u6 : onlyBtn JOYPAD_B JOYPAD_LEFT = false := rfl
  have u7 : onlyBtn JOYPAD_B JOYPAD_RIGHT = false := rfl
  have u0 : onlyBtn JOYPAD_B JOYPAD_B = true := rfl
  simp [handle_page_input, pageStageUp_skip, pageStageDown_skip,
    pageStageL_skip, pageStageR_skip, pageStageLeft_skip, pageStageRight_skip,
    pageStageBack_fireB, u4, u5, u10, u11, u6, u7, u0, hBb, pageBack]

/-- Full effect of one `handle_page_input` frame whose only input is
START (held-counter 0): the back block fires through the second half of
the short-circuit, after B's counter is reset. -/
lemma handle_page_onlyStart (cat : Catalog) (s : CoreState)
    (hSt : s.heldFrames JOYPAD_START = 0) :
    handle_page_input cat (onlyBtn JOYPAD_START) s =
      { pageBack s with heldFrames := (fun b =>
          if b = JOYPAD_START then 1
          else if b = JOYPAD_B then 0
          else if b = JOYPAD_RIGHT then 0
          else if b = JOYPAD_LEFT then 0
          else if b = JOYPAD_R then 0
          else if b = JOYPAD_L then 0
          else if b = JOYPAD_DOWN then 0
          else if b = JOYPAD_UP then 0
          else s.heldFrames b) } := by
  have u4 : onlyBtn JOYPAD_START JOYPAD_UP = false := rfl
  have u5 : onlyBtn JOYPAD_START JOYPAD_DOWN = false := rfl
  have u10 : onlyBtn JOYPAD_START JOYPAD_L = false := rfl
  have u11 : onlyBtn JOYPAD_START JOYPAD_R = false := rfl
  have u6 : onlyBtn JOYPAD_START JOYPAD_LEFT = false := rfl
  have u7 : onlyBtn JOYPAD_START JOYPAD_RIGHT = false := rfl
  have u0 : onlyBtn JOYPAD_START JOYPAD_B = false := rfl
  have u3 : onlyBtn JOYPAD_START JOYPAD_START = true := rfl
  simp [handle_page_input, pageStageUp_skip, pageStageDown_skip,
    pageStageL_skip, pageStageR_skip, pageStageLeft_skip, pageStageRight_skip,
    pageStageBack_fireStart, u4, u5, u10, u11, u6, u7, u0, u3, hSt, pageBack]

/-! ## Viewer prev/next wraparound (claim C7) -/

/-- C7: in the Viewing screen (`handle_page_input`), a frame whose only
input is Left switches to the previous document and one whose only input
is Right switches to the next, with wraparound at the catalog ends
(index 0 wraps to N-1 on Left; index N-1 wraps to 0 on Right), and every
such switch resets the viewer scroll to 0. -/
theorem c7_viewer_wraparound (cat : Catalog) (s : CoreState)
    (hP : s.state = CState.page)
    (hLf : s.heldFrames JOYPAD_LEFT = 0)
    (hRt : s.heldFrames JOYPAD_RIGHT = 0) :
    ((handle_page_input cat (onlyBtn JOYPAD_LEFT) s).currentPage =
       (if s.currentPage - 1 < 0 then (cat.count : Int) - 1
        else s.currentPage - 1) ∧
     (handle_page_input cat (onlyBtn JOYPAD_LEFT) s).pageScroll = 0 ∧
     (handle_page_input cat (onlyBtn JOYPAD_LEFT) s).state = CState.page) ∧
    ((handle_page_input cat (onlyBtn JOYPAD_RIGHT) s).currentPage =
       (if s.currentPage + 1 ≥ (cat.count : Int) then 0
        else s.currentPage + 1) ∧
     (handle_page_input cat (onlyBtn JOYPAD_RIGHT) s).pageScroll = 0 ∧
     (handle_page_input cat (onlyBtn JOYPAD_RIGHT) s).state = CState.page) ∧
    (s.currentPage = 0 →
      (handle_page_input cat (onlyBtn JOYPAD_LEFT) s).currentPage =
        (cat.count : Int) - 1) ∧
    (s.currentPage = (cat.count : Int) - 1 →
      (handle_page_input cat (onlyBtn JOYPAD_RIGHT) s).currentPage = 0) := by
  rw [handle_page_onlyLeft cat s hLf, handle_page_onlyRight cat s hRt]
  refine ⟨⟨rfl, rfl, hP⟩, ⟨rfl, rfl, hP⟩, fun h0 => ?_, fun hN => ?_⟩
  · dsimp only [pagePrev]
    rw [h0]
    norm_num
  · dsimp only [pageNext]
    rw [hN]
    split_ifs <;> omega

/-! ## Back from Viewing to Contents (claim C4) -/

/-- C4: in the Viewing screen (`handle_page_input`), a frame whose only
input is the Back button (B, and likewise Start) returns to the Contents
state with the Contents cursor set to the current document, and corrects
the Contents scroll offset directly so that the cursor is visible: it
becomes the cursor when the cursor was above the window,
`cursor - listRows + 1` when it was below, and is otherwise unchanged;
afterwards the cursor lies inside the visible window. -/
theorem c4_back_visibility (cat : Catalog) (s : CoreState)
    (hP : s.state = CState.page)
    (hBb : s.heldFrames JOYPAD_B = 0)
    (hSt : s.heldFrames JOYPAD_START = 0) :
    ((handle_page_input cat (onlyBtn JOYPAD_B) s).state = CState.toc ∧
     (handle_page_input cat (onlyBtn JOYPAD_B) s).tocCursor = s.currentPage ∧
     (handle_page_input cat (onlyBtn JOYPAD_B) s).tocScroll =
       (if s.currentPage < s.tocScroll then s.currentPage
        else if s.currentPage ≥ s.tocScroll + (CONTENT_ROWS - 3)
        then s.currentPage - (CONTENT_ROWS - 3) + 1
        else s.tocScroll) ∧
     (handle_page_input cat (onlyBtn JOYPAD_B) s).tocScroll ≤
       (handle_page_input cat (onlyBtn JOYPAD_B) s).tocCursor ∧
     (handle_page_input cat (onlyBtn JOYPAD_B) s).tocCursor <
       (handle_page_input cat (onlyBtn JOYPAD_B) s).tocScroll +
         (CONTENT_ROWS - 3)) ∧
    ((handle_page_input cat (onlyBtn JOYPAD_START) s).state = CState.toc ∧
     (handle_page_input cat (onlyBtn JOYPAD_START) s).tocCursor =
       s.currentPage ∧
     (handle_page_input cat (onlyBtn JOYPAD_START) s).tocScroll =
       (if s.currentPage < s.tocScroll then s.currentPage
        else if s.currentPage ≥ s.tocScroll + (CONTENT_ROWS - 3)
        then s.currentPage - (CONTENT_ROWS - 3) + 1
        else s.tocScroll)) := by
  rw [handle_page_onlyB cat s hBb, handle_page_onlyStart cat s hSt]
  refine ⟨⟨rfl, rfl, ?_, ?_, ?_⟩, rfl, rfl, ?_⟩ <;>
    (dsimp only [pageBack, CONTENT_ROWS]; split_ifs <;> omega)

/-! ## Page-step asymmetry in Contents (claim C3) -/

/-- Counterexample to C3: pressing R (page-down) at cursor 0, scroll 0 in
a 30-document Contents list moves the cursor to 22 but sets the scroll
offset to 1, not to the new cursor value 22 — page-down does not snap the
scroll directly to the cursor. -/
theorem c3_page_step_counterexample :
    (retro_run assets0 cat30 (onlyBtn JOYPAD_R) sToc).st.tocCursor = 22 ∧
    (retro_run assets0 cat30 (onlyBtn JOYPAD_R) sToc).st.tocScroll = 1 ∧
    (retro_run assets0 cat30 (onlyBtn JOYPAD_R) sToc).st.tocScroll ≠
      (retro_run assets0 cat30 (onlyBtn JOYPAD_R) sToc).st.tocCursor := by
  refine ⟨by decide, by decide, by decide⟩

/-- C3 as amended: in the Contents screen a page-step moves the cursor by
a full page (`CONTENT_ROWS - 3` entries) and clamps it to `[0, N-1]`, but
the two directions scroll differently: page-up (L) snaps the scroll
offset directly to the new cursor value, while page-down (R) adjusts the
scroll by incremental-follow (`cursor - listRows + 1` only when the new
cursor is at or past `scroll + listRows`).  Both leave all offsets within
the invariant bounds `[0, max 0 (N - listRows)]`. -/
theorem c3_page_step_amended (a : Assets) (cat : Catalog) (s : CoreState)
    (hL : s.gameLoaded = true) (hT : s.state = CState.toc)
    (hBL : s.heldFrames JOYPAD_L = 0) (hBR : s.heldFrames JOYPAD_R = 0) :
    ((retro_run a cat (onlyBtn JOYPAD_L) s).st.tocCursor =
       (if s.tocCursor - (CONTENT_ROWS - 3) < 0 then 0
        else s.tocCursor - (CONTENT_ROWS - 3)) ∧
     (retro_run a cat (onlyBtn JOYPAD_L) s).st.tocScroll =
       (retro_run a cat (onlyBtn JOYPAD_L) s).st.tocCursor) ∧
    ((retro_run a cat (onlyBtn JOYPAD_R) s).st.tocCursor =
       (if s.tocCursor + (CONTENT_ROWS - 3) ≥ (cat.count : Int)
        then (cat.count : Int) - 1
        else s.tocCursor + (CONTENT_ROWS - 3)) ∧
     (retro_run a cat (onlyBtn JOYPAD_R) s).st.tocScroll =
       (if (retro_run a cat (onlyBtn JOYPAD_R) s).st.tocCursor ≥
            s.tocScroll + (CONTENT_ROWS - 3)
        then (retro_run a cat (onlyBtn JOYPAD_R) s).st.tocCursor -
          (CONTENT_ROWS - 3) + 1
        else s.tocScroll)) ∧
    (Inv cat s → 0 < cat.count →
      Inv cat (retro_run a cat (onlyBtn JOYPAD_L) s).st ∧
      Inv cat (retro_run a cat (onlyBtn JOYPAD_R) s).st) := by
  refine ⟨?_, ?_, fun hi hN =>
    ⟨inv_retro_run a cat (onlyBtn JOYPAD_L) s hN hi,
     inv_retro_run a cat (onlyBtn JOYPAD_R) s hN hi⟩⟩
  · simp only [JOYPAD_L] at hBL
    simp [retro_run, hL, hT, handle_toc_input, tocStageUp, tocStageDown,
      tocStageL, tocStageR, tocStageOpen, tocStageLeft, tocUp, tocDown,
      tocPgUp, tocPgDn, tocOpen, tocLeft, btn_pressed, onlyBtn, CONTENT_ROWS,
      JOYPAD_UP, JOYPAD_DOWN, JOYPAD_LEFT, JOYPAD_RIGHT, JOYPAD_A,
      JOYPAD_L, JOYPAD_R, REPEAT_DELAY, REPEAT_RATE, hBL]
  · simp only [JOYPAD_R] at hBR
    simp [retro_run, hL, hT, handle_toc_input, tocStageUp, tocStageDown,
      tocStageL, tocStageR, tocStageOpen, tocStageLeft, tocUp, tocDown,
      tocPgUp, tocPgDn, tocOpen, tocLeft, btn_pressed, onlyBtn, CONTENT_ROWS,
      JOYPAD_UP, JOYPAD_DOWN, JOYPAD_LEFT, JOYPAD_RIGHT, JOYPAD_A,
      JOYPAD_L, JOYPAD_R, REPEAT_DELAY, REPEAT_RATE, hBR]


/-- Witness for C6: pressing A on the concrete Contents state opens the
document under the cursor. -/
theorem c6_open_document_witness :
    (retro_run assets0 cat3 (onlyBtn JOYPAD_A) sToc).st.state = CState.page ∧
    (retro_run assets0 cat3 (onlyBtn JOYPAD_A) sToc).st.currentPage =
      sToc.tocCursor ∧
    (retro_run assets0 cat3 (onlyBtn JOYPAD_A) sToc).st.pageScroll = 0 :=
  ⟨(c6_open_document assets0 cat3 sToc rfl rfl rfl rfl).1.1,
   (c6_open_document assets0 cat3 sToc rfl rfl rfl rfl).1.2.1,
   (c6_open_document assets0 cat3 sToc rfl rfl rfl rfl).1.2.2.1⟩

/-- Witness for C5: pressing Left on the concrete Contents state opens
the document at the (unchanged, already-first) cursor. -/
theorem c5_left_select_then_open_witness :
    (retro_run assets0 cat3 (onlyBtn JOYPAD_LEFT) sToc).st.state =
      CState.page ∧
    (retro_run assets0 cat3 (onlyBtn JOYPAD_LEFT) sToc).st.pageScroll = 0 :=
  ⟨(c5_left_select_then_open assets0 cat3 sToc rfl rfl rfl).1,
   (c5_left_select_then_open assets0 cat3 sToc rfl rfl rfl).2.2.2.2⟩

/-- Witness for C7: Left at document 0 of the concrete three-document
catalog wraps to document 2. -/
theorem c7_viewer_wraparound_witness :
    (handle_page_input cat3 (onlyBtn JOYPAD_LEFT) sPage).currentPage =
      (cat3.count : Int) - 1 ∧
    (handle_page_input cat3 (onlyBtn JOYPAD_LEFT) sPage).pageScroll = 0 :=
  ⟨(c7_viewer_wraparound cat3 sPage rfl rfl rfl).2.2.1 rfl,
   (c7_viewer_wraparound cat3 sPage rfl rfl rfl).1.2.1⟩

/-- Witness for C4: pressing B on the concrete Viewing state returns to
Contents with the cursor on the current document. -/
theorem c4_back_visibility_witness :
    (handle_page_input cat3 (onlyBtn JOYPAD_B) sPage).state = CState.toc ∧
    (handle_page_input cat3 (onlyBtn JOYPAD_B) sPage).tocCursor =
      sPage.currentPage :=
  ⟨(c4_back_visibility cat3 sPage rfl rfl rfl).1.1,
   (c4_back_visibility cat3 sPage rfl rfl rfl).1.2.1⟩

/-- Witness for the amended C3: on the concrete Contents state, page-up
snaps the scroll to the cursor. -/
theorem c3_page_step_amended_witness :
    (retro_run assets0 cat3 (onlyBtn JOYPAD_L) sToc).st.tocScroll =
      (retro_run assets0 cat3 (onlyBtn JOYPAD_L) sToc).st.tocCursor :=
  (c3_page_step_amended assets0 cat3 sToc rfl rfl rfl rfl).1.2

end EmuPages
